import Mathlib

/-!
Verification development for the geometry core of the tofu repository
(`tofu/geom/_core.py`).  The Python functions relevant to the checked
properties are shallowly embedded as Lean definitions: numpy float arrays
become lists over an explicit value type with NaN and infinities, numpy
1D/2D arrays become a shape-plus-row-major-data structure over the
rationals, and the observable behaviour of a stateful method (warnings,
exceptions, dictionary updates) becomes an explicit event trace.
-/

namespace Tofu

instance {ε α : Type} [DecidableEq ε] [DecidableEq α] : DecidableEq (Except ε α) := by
  intro a b
  cases a <;> cases b
  case error.error e f => exact decidable_of_iff (e = f) (by simp)
  case ok.ok x y => exact decidable_of_iff (x = y) (by simp)
  all_goals exact Decidable.isFalse (by simp)

/-! ## Floating-point sentinel values

Embedding of the numpy float values that matter to the sentinel policy of
`Rays._compute_dgeom`: finite values (modelled as rationals), the two
infinities and NaN. -/

inductive FVal where
  | fin (q : ℚ)
  | pinf
  | ninf
  | nan
deriving DecidableEq, Repr

/-- Embedding of `np.isnan` on a single value. -/
def FVal.isnanF : FVal → Bool
  | .nan => true
  | _ => false

/-- Embedding of `np.isinf` on a single value (true on both infinities,
false on NaN and finite values). -/
def FVal.isinfF : FVal → Bool
  | .pinf => true
  | .ninf => true
  | _ => false

/-! ## `Rays._compute_dgeom`, sentinel post-processing

Embedding of `_core.py` lines 2158-2173, the post-processing of the
`kMin`/`kMax` arrays returned by `_GG.LOS_Calc_PInOut_VesStruct`:

    ind = np.isnan(kMin)
    kMin[ind] = 0.
    ind = np.isnan(kMax) | np.isinf(kMax)
    if np.any(ind):
        kMax[ind] = np.nan
        msg = "Some LOS have no visibility inside the plasma domain !"
        warnings.warn(msg)
        if plotdebug:
            _plot._LOS_calc_InOutPolProj_Debug(self.Ves, ...)
    dd = {'kMin':kMin, 'kMax':kMax, 'vperp':vperp, 'indout':indout}
    self._dgeom.update(dd)

`plotdebug` is a parameter of `Rays.__init__` (line 1876) that is never
stored on the instance and is not a module-level name, so evaluating
`if plotdebug:` inside `_compute_dgeom` raises `NameError`.  The method's
observable behaviour is modelled as a trace of events. -/

inductive PyEvent where
  | warn (msg : String)
  | nameError (name : String)
  | storeDgeom (kMin kMax : List FVal)
deriving DecidableEq, Repr

/-- The warning message of `_core.py` line 2163. -/
def losNoVisMsg : String := "Some LOS have no visibility inside the plasma domain !"

/-- Embedding of lines 2158-2159: entries of `kMin` that are NaN are set
to 0, in place. -/
def kMin_sentinel (kMin : List FVal) : List FVal :=
  kMin.map (fun k => if k.isnanF then FVal.fin 0 else k)

/-- Embedding of line 2162: entries of `kMax` that are NaN or infinite are
set to NaN, in place. -/
def kMax_sentinel (kMax : List FVal) : List FVal :=
  kMax.map (fun k => if k.isnanF || k.isinfF then FVal.nan else k)

/-- Embedding of lines 2160-2161: the mask `ind = np.isnan(kMax) | np.isinf(kMax)`
followed by `np.any(ind)`. -/
def kMax_bad (kMax : List FVal) : Bool :=
  (kMax.map (fun k => k.isnanF || k.isinfF)).any id

/-- Event trace of `_core.py` lines 2158-2173.  When no entry of `kMax`
is NaN or infinite, the sanitized arrays are stored into `self._dgeom`.
When some entry is, the generic warning is emitted and the subsequent
`if plotdebug:` raises `NameError` (`plotdebug` is not in scope), so the
method aborts before `self._dgeom.update(dd)` runs. -/
def compute_dgeom_post (kMin kMax : List FVal) : List PyEvent :=
  if kMax_bad kMax then
    [PyEvent.warn losNoVisMsg, PyEvent.nameError "plotdebug"]
  else
    [PyEvent.storeDgeom (kMin_sentinel kMin) kMax]

/-! ## numpy arrays

Embedding of the numpy 1D/2D arrays handled by
`Struct._checkformat_inputs_dgeom`: an explicit shape and row-major data
over the rationals. -/

structure NpArray where
  shape : List ℕ
  data : List ℚ
deriving DecidableEq, Repr

/-- Embedding of `arr.ndim`. -/
def NpArray.ndim (a : NpArray) : ℕ := a.shape.length

/-- Embedding of `arr.size` (product of the shape). -/
def NpArray.sizeA (a : NpArray) : ℕ := a.shape.prod

/-- Well-formedness: the row-major data has exactly `size` entries. -/
def NpArray.WF (a : NpArray) : Prop := a.data.length = a.shape.prod

/-- Embedding of `arr.T` for a 2D array (identity on other ranks, which never reach
the transpose in the embedded code paths). -/
def transpose2 (a : NpArray) : NpArray :=
  match a.shape with
  | [r, c] =>
      ⟨[c, r],
       ((List.range c).map
         (fun j => (List.range r).map (fun i => a.data.getD (i * c + j) 0))).flatten⟩
  | _ => a

/-- The default `Lim` of `Struct._ddef['dgeom']['Lim']`, the empty list
`[]`, i.e. a 1D array of size 0. -/
def Lim_default : NpArray := ⟨[0], []⟩

/-- Embedding of `_core.py` lines 233-242, the normalization of the `Lim`
argument inside `Struct._checkformat_inputs_dgeom`:

    assert Lim.ndim in [1,2] and (2 in Lim.shape or 0 in Lim.shape)
    if Lim.ndim==1:
        assert Lim.size in [0,2]
        if Lim.size==2:
            Lim = Lim.reshape((1,2))
    else:
        if Lim.shape[1]!=2:
            Lim = Lim.T
-/
def checkformat_Lim (Lim : NpArray) : Except String NpArray :=
  if (Lim.ndim = 1 ∨ Lim.ndim = 2) ∧ (2 ∈ Lim.shape ∨ 0 ∈ Lim.shape) then
    match Lim.shape with
    | [n] =>
        if n = 0 then Except.ok Lim
        else if n = 2 then Except.ok ⟨[1, 2], Lim.data⟩
        else Except.error "AssertionError: Lim.size in [0,2]"
    | [_, c] =>
        if c ≠ 2 then Except.ok (transpose2 Lim) else Except.ok Lim
    | _ => Except.error "AssertionError: Lim.ndim in [1,2]"
  else
    Except.error "AssertionError: Lim shape"

/-- Embedding of `_core.py` lines 223-227, the `Poly` checks of
`Struct._checkformat_inputs_dgeom`:

    assert Poly.ndim==2 and 2 in Poly.shape
    if Poly.shape[0]!=2:
        Poly = Poly.T
-/
def checkformat_Poly (Poly : NpArray) : Except String NpArray :=
  if Poly.ndim = 2 ∧ 2 ∈ Poly.shape then
    match Poly.shape with
    | [r, _] => if r ≠ 2 then Except.ok (transpose2 Poly) else Except.ok Poly
    | _ => Except.error "AssertionError: Poly.ndim==2"
  else
    Except.error "AssertionError: Poly.ndim==2 and 2 in Poly.shape"

inductive VType where
  | Tor
  | Lin
deriving DecidableEq, Repr

/-- Embedding of `Struct._checkformat_inputs_dgeom` (`_core.py` lines
215-245) restricted to the geometry-relevant arguments: the `Poly`
checks, the `Lim` normalization (with `Lim=None` replaced by the class
default `[]`), and the final `Type=='Lin'` requirement `Lim.size>0`. -/
def Struct_checkformat_inputs_dgeom (Poly : NpArray) (Lim : Option NpArray)
    (Typ : VType) : Except String (NpArray × NpArray) :=
  match checkformat_Poly Poly with
  | Except.error e => Except.error e
  | Except.ok P =>
      match checkformat_Lim (Lim.getD Lim_default) with
      | Except.error e => Except.error e
      | Except.ok L =>
          if Typ = VType.Lin ∧ L.sizeA = 0 then
            Except.error "AssertionError: Lim.size>0"
          else
            Except.ok (P, L)

/-- Embedding of `Ves._checkformat_inputs_dgeom` (`_core.py` lines
854-865): the `Struct` checks, then `mobile is False`, then, for
`Type=='Tor'`, `Lim.size==0` with message
"There cannot be Lim if Type='Tor' !". -/
def Ves_checkformat_inputs_dgeom (Poly : NpArray) (Lim : Option NpArray)
    (Typ : VType) (mobile : Bool) : Except String (NpArray × NpArray) :=
  match Struct_checkformat_inputs_dgeom Poly Lim Typ with
  | Except.error e => Except.error e
  | Except.ok out =>
      if mobile then
        Except.error "Ves instances cannot be mobile !"
      else if Typ = VType.Tor ∧ out.2.sizeA ≠ 0 then
        Except.error "There cannot be Lim if Type=Tor !"
      else
        Except.ok out

/-- Modelled from the spec: the polygon construction performed at
`Struct` construction time after `_checkformat_inputs_dgeom`
(`_comp._Struct_set_Poly` and the native `_GG` kernel, whose sources are
not under `src/`) rejects a degenerate contour with fewer than 3
vertices. -/
def set_Poly_check (P : NpArray) : Except String NpArray :=
  match P.shape with
  | [_, n] => if n < 3 then Except.error "degenerate polygon: fewer than 3 vertices" else Except.ok P
  | _ => Except.error "degenerate polygon: not 2D"

/-- The `Poly` processing at `Struct` construction time: the
`_checkformat_inputs_dgeom` checks from the source, followed by the
spec-modelled vertex-count rejection. -/
def Struct_construct_Poly (Poly : NpArray) : Except String NpArray :=
  match checkformat_Poly Poly with
  | Except.error e => Except.error e
  | Except.ok P => set_Poly_check P

/-! ## `Rays._checkformat_inputs_dgeom` and the `u` property

Embedding of `_core.py` lines 1998-2011 and 2468-2477.  A `(3,N)` numpy
array is embedded as a list of `N` column vectors in `ℝ × ℝ × ℝ`. -/

/-- A column of a `(3,N)` array. -/
def Vec3 : Type := ℝ × ℝ × ℝ

/-- Embedding of `np.sqrt(np.sum(v**2, axis=0))` for one column: the Euclidean norm. -/
noncomputable def norm3 (v : Vec3) : ℝ :=
  Real.sqrt (v.1 ^ 2 + v.2.1 ^ 2 + v.2.2 ^ 2)

/-- One column of `u = u/np.sqrt(np.sum(u**2,axis=0))[np.newaxis,:]`
(`_core.py` line 2002): the column divided componentwise by its
Euclidean norm. -/
noncomputable def normalize3 (v : Vec3) : Vec3 :=
  (v.1 / norm3 v, v.2.1 / norm3 v, v.2.2 / norm3 v)

/-- The error message of `_core.py` line 2007. -/
def nRaysAmbiguousMsg : String := "The number of rays is ambiguous from D and u shapes !"

/-- Embedding of the `u`-supplied branch of `Rays._checkformat_inputs_dgeom`
(`_core.py` lines 1998-2011):

    u = u/np.sqrt(np.sum(u**2,axis=0))[np.newaxis,:]
    nD, nu = D.shape[1], u.shape[1]
    C0 = nD==1 and nu>1
    C1 = nD>1 and nu==1
    C2 = nD==nu
    msg = "The number of rays is ambiguous from D and u shapes !"
    assert C0 or C1 or C2, msg
    nRays = max(nD,nu)
    dgeom = {'D':D, 'u':u, 'nRays':nRays}

Arrays of shape `(3,nD)` / `(3,nu)` are given as lists of columns. -/
noncomputable def Rays_checkformat_inputs_dgeom (D u : List Vec3) :
    Except String (List Vec3 × List Vec3 × ℕ) :=
  let u1 := u.map normalize3
  let nD := D.length
  let nu := u.length
  if (nD = 1 ∧ nu > 1) ∨ (nD > 1 ∧ nu = 1) ∨ nD = nu then
    Except.ok (D, u1, max nD nu)
  else
    Except.error nRaysAmbiguousMsg

/-- Embedding of the pinhole branch of the `Rays.u` property (`_core.py`
lines 2470-2472):

    u = self._dgeom['pinhole'][:,np.newaxis]-self._dgeom['D']
    u = u/np.sqrt(np.sum(u**2,axis=0))[np.newaxis,:]
-/
noncomputable def Rays_u_pinhole (pinhole : Vec3) (D : List Vec3) : List Vec3 :=
  D.map (fun d => normalize3 (pinhole.1 - d.1, pinhole.2.1 - d.2.1, pinhole.2.2 - d.2.2))

/-! ## `Config.isInside`

Embedding of `_core.py` lines 1688-1726.  The per-structure containment
test `_GG._Ves_isInside` lives in the native kernel, whose source is not
under `src/`; its output is abstracted as a boolean matrix supplied per
structure. -/

inductive LogMode where
  | logAny
  | logAll
deriving DecidableEq, Repr

/-- Embedding of `np.any(rows, axis=0)` for a boolean matrix with `nP` columns. -/
def np_any_axis0 (rows : List (List Bool)) (nP : ℕ) : List Bool :=
  (List.range nP).map (fun j => rows.any (fun row => row.getD j false))

/-- Embedding of `np.all(rows, axis=0)` for a boolean matrix with `nP` columns. -/
def np_all_axis0 (rows : List (List Bool)) (nP : ℕ) : List Bool :=
  (List.range nP).map (fun j => rows.all (fun row => row.getD j false))

/-- Modelled from the spec: `_GG._Ves_isInside` (native kernel not under
`src/`) returns, for one structure, a boolean containment array of shape
`(nLim, nP)` with one row per occurrence when `nLim>1`, and a flat array
of shape `(nP,)` otherwise; it is abstracted here as an arbitrary
well-shaped boolean matrix (`rows`) attached to the structure, a flat
result being the single-row matrix. -/
structure StructInside where
  nLim : ℕ
  rows : List (List Bool)

/-- Embedding of the loop body of `Config.isInside` (`_core.py` lines
1713-1725) for one structure:

    indi = _GG._Ves_isInside(...)
    if lStruct[ii].nLim>1:
        if log=='any':
            indi = np.any(indi,axis=0)
        else:
            indi = np.all(indi,axis=0)
    ind[ii,:] = indi
-/
def Config_isInside_row (log : LogMode) (nP : ℕ) (s : StructInside) : List Bool :=
  if s.nLim > 1 then
    if log = LogMode.logAny then np_any_axis0 s.rows nP else np_all_axis0 s.rows nP
  else
    s.rows.headD (List.replicate nP false)

/-- Embedding of `Config.isInside` (`_core.py` lines 1688-1726): the
`(nStruct, nP)` boolean array, built row by row (`ind` is initialized to
`np.zeros((nStruct,nP))` and row `ii` is overwritten with the possibly
collapsed per-structure result). -/
def Config_isInside (log : LogMode) (nP : ℕ) (lS : List StructInside) :
    List (List Bool) :=
  lS.map (Config_isInside_row log nP)

/-! ## Helper lemmas -/

/-- Whether an `Except` value is a success. -/
def isOkE {ε α : Type} : Except ε α → Bool
  | Except.ok _ => true
  | Except.error _ => false

theorem isOkE_error {ε α : Type} (e : ε) : isOkE (Except.error e : Except ε α) = false := rfl

theorem transpose2_shape (a : NpArray) (r c : ℕ) (h : a.shape = [r, c]) :
    (transpose2 a).shape = [c, r] := by
  unfold transpose2
  rw [h]

theorem transpose2_sizeA (a : NpArray) (r c : ℕ) (h : a.shape = [r, c]) :
    (transpose2 a).sizeA = a.sizeA := by
  unfold NpArray.sizeA
  rw [transpose2_shape a r c h, h]
  simp [Nat.mul_comm]

/-- The `Lim` normalization preserves the number of elements. -/
theorem checkformat_Lim_sizeA (a L : NpArray) (h : checkformat_Lim a = Except.ok L) :
    L.sizeA = a.sizeA := by
  unfold checkformat_Lim at h
  split at h
  · split at h
    next n heq =>
      split at h
      · cases h
        rfl
      · split at h
        next h2 =>
          cases h
          simp [NpArray.sizeA, heq, h2]
        next h2 => cases h
    next r c heq =>
      split at h
      next h2 =>
        cases h
        exact transpose2_sizeA a r c heq
      next h2 =>
        cases h
        rfl
    next => cases h
  · cases h

/-- A nonzero column divided by its Euclidean norm has Euclidean norm 1. -/
theorem norm3_normalize3 (v : Vec3) (hv : v ≠ ((0 : ℝ), (0 : ℝ), (0 : ℝ))) :
    norm3 (normalize3 v) = 1 := by
  obtain ⟨x, y, z⟩ := v
  have hs : 0 < x ^ 2 + y ^ 2 + z ^ 2 := by
    rcases Prod.mk.injEq .. ▸ (fun h => hv h) with h
    by_contra hle
    push_neg at hle
    have hx : x = 0 := by nlinarith [sq_nonneg x, sq_nonneg y, sq_nonneg z]
    have hy : y = 0 := by nlinarith [sq_nonneg x, sq_nonneg y, sq_nonneg z]
    have hz : z = 0 := by nlinarith [sq_nonneg x, sq_nonneg y, sq_nonneg z]
    exact hv (by simp [hx, hy, hz])
  have hn : norm3 (x, y, z) = Real.sqrt (x ^ 2 + y ^ 2 + z ^ 2) := rfl
  have hnpos : 0 < norm3 (x, y, z) := by
    rw [hn]
    exact Real.sqrt_pos.mpr hs
  have hnsq : norm3 (x, y, z) ^ 2 = x ^ 2 + y ^ 2 + z ^ 2 := by
    rw [hn]
    exact Real.sq_sqrt (le_of_lt hs)
  have hne : norm3 (x, y, z) ≠ 0 := ne_of_gt hnpos
  show Real.sqrt ((x / norm3 (x, y, z)) ^ 2 + (y / norm3 (x, y, z)) ^ 2 +
      (z / norm3 (x, y, z)) ^ 2) = 1
  have : (x / norm3 (x, y, z)) ^ 2 + (y / norm3 (x, y, z)) ^ 2 +
      (z / norm3 (x, y, z)) ^ 2 = 1 := by
    field_simp
    linarith [hnsq]
  rw [this, Real.sqrt_one]

/-! ## Claims -/

/-- C1: the claim states that after `Rays._compute_dgeom` obtains per-ray
`kMin`/`kMax`, NaN entries of `kMin` are replaced by 0, NaN/inf entries of
`kMax` are replaced by NaN with a warning, and the arrays are stored in
`dgeom`.  The code does perform exactly these replacements on the local
arrays, but whenever at least one `kMax` entry is NaN or infinite the
branch that emits the warning then evaluates `if plotdebug:` with
`plotdebug` not in scope, raising `NameError`, so `self._dgeom.update(dd)`
is never reached: at the input `kMin = [NaN, 1]`, `kMax = [+inf, 2]` the
trace is the warning followed by the `NameError`, with no store event,
even though the sentinel replacements compute `[0, 1]` and `[NaN, 2]`. -/
theorem C1_sentinel_crash_before_store :
    compute_dgeom_post [FVal.nan, FVal.fin 1] [FVal.pinf, FVal.fin 2] =
      [PyEvent.warn losNoVisMsg, PyEvent.nameError "plotdebug"] ∧
    kMin_sentinel [FVal.nan, FVal.fin 1] = [FVal.fin 0, FVal.fin 1] ∧
    kMax_sentinel [FVal.pinf, FVal.fin 2] = [FVal.nan, FVal.fin 2] ∧
    compute_dgeom_post [FVal.nan, FVal.fin 1] [FVal.fin 3, FVal.fin 2] =
      [PyEvent.storeDgeom [FVal.fin 0, FVal.fin 1] [FVal.fin 3, FVal.fin 2]] := by
  decide

/-- C2: the claim states that a ray bundle containing a ray with no valid
crossing (`kMax = NaN`) is processed normally, with only a warning and no
exception.  On such a bundle the code emits the warning and then raises
`NameError` (the name `plotdebug` is a never-stored `__init__` parameter),
so `_compute_dgeom` aborts: at `kMin = [0]`, `kMax = [NaN]` the trace is
the warning followed by the uncaught `NameError`. -/
theorem C2_no_crossing_raises :
    compute_dgeom_post [FVal.fin 0] [FVal.nan] =
      [PyEvent.warn losNoVisMsg, PyEvent.nameError "plotdebug"] ∧
    PyEvent.nameError "plotdebug" ∈ compute_dgeom_post [FVal.fin 0] [FVal.nan] := by
  decide

/-- C3 counterexample: the claim states that the no-crossing warning
identifies the specific ray indices affected.  Two bundles whose affected
index masks differ (ray 0 bad versus ray 1 bad) produce bitwise identical
event traces, so the warning cannot identify the affected rays. -/
theorem C3_warning_counterexample :
    ([FVal.nan, FVal.fin 1].map (fun k => k.isnanF || k.isinfF)) ≠
      ([FVal.fin 1, FVal.nan].map (fun k => k.isnanF || k.isinfF)) ∧
    compute_dgeom_post [FVal.fin 0, FVal.fin 0] [FVal.nan, FVal.fin 1] =
      compute_dgeom_post [FVal.fin 0, FVal.fin 0] [FVal.fin 1, FVal.nan] := by
  decide

/-- C3 (amended): whenever at least one entry of `kMax` is NaN or
infinite, the emitted warning is the fixed generic message
"Some LOS have no visibility inside the plasma domain !", independent of
which rays are affected; it does not identify the affected ray indices
(and is followed by the `NameError` abort). -/
theorem C3_warning_generic (kMin kMax : List FVal) (h : kMax_bad kMax = true) :
    compute_dgeom_post kMin kMax =
      [PyEvent.warn losNoVisMsg, PyEvent.nameError "plotdebug"] := by
  unfold compute_dgeom_post
  rw [if_pos h]

theorem C3_warning_generic_witness :
    kMax_bad [FVal.ninf] = true ∧
    compute_dgeom_post [FVal.fin 5] [FVal.ninf] =
      [PyEvent.warn losNoVisMsg, PyEvent.nameError "plotdebug"] :=
  ⟨by decide, C3_warning_generic [FVal.fin 5] [FVal.ninf] (by decide)⟩

/-- C4: for `Type='Lin'`, an empty `Lim` argument -- `None` (replaced by
the class default `[]`), `[]` itself, or any zero-size array -- makes
`Struct._checkformat_inputs_dgeom` fail with an error, while a nonempty
`Lim` accepted by the normalization passes the `Lim.size>0` check and the
construction check succeeds. -/
theorem C4_Lin_empty_Lim (Poly : NpArray) :
    isOkE (Struct_checkformat_inputs_dgeom Poly none VType.Lin) = false ∧
    (∀ a : NpArray, a.sizeA = 0 →
      isOkE (Struct_checkformat_inputs_dgeom Poly (some a) VType.Lin) = false) ∧
    (∀ a L P : NpArray, checkformat_Poly Poly = Except.ok P →
      checkformat_Lim a = Except.ok L → 0 < a.sizeA →
      Struct_checkformat_inputs_dgeom Poly (some a) VType.Lin = Except.ok (P, L)) := by
  refine ⟨?_, ?_, ?_⟩
  · cases hP : checkformat_Poly Poly with
    | error e => simp [Struct_checkformat_inputs_dgeom, hP, isOkE]
    | ok P =>
        have hL : checkformat_Lim ⟨[0], []⟩ = Except.ok (⟨[0], []⟩ : NpArray) := by decide
        simp [Struct_checkformat_inputs_dgeom, hP, hL, isOkE, NpArray.sizeA, Lim_default]
  · intro a ha
    cases hP : checkformat_Poly Poly with
    | error e => simp [Struct_checkformat_inputs_dgeom, hP, isOkE]
    | ok P =>
        cases hL : checkformat_Lim a with
        | error e => simp [Struct_checkformat_inputs_dgeom, hP, hL, isOkE]
        | ok L =>
            have hz : L.sizeA = 0 := by
              rw [checkformat_Lim_sizeA a L hL, ha]
            simp [Struct_checkformat_inputs_dgeom, hP, hL, isOkE, hz]
  · intro a L P hP hL ha
    have hz : ¬ L.sizeA = 0 := by
      rw [checkformat_Lim_sizeA a L hL]
      omega
    simp [Struct_checkformat_inputs_dgeom, hP, hL, hz]

theorem C4_Lin_empty_Lim_witness :
    isOkE (Struct_checkformat_inputs_dgeom ⟨[2, 3], [0, 1, 1, 0, 0, 1]⟩
      (some ⟨[0], []⟩) VType.Lin) = false ∧
    Struct_checkformat_inputs_dgeom ⟨[2, 3], [0, 1, 1, 0, 0, 1]⟩
      (some ⟨[1, 2], [0, 10]⟩) VType.Lin =
      Except.ok (⟨[2, 3], [0, 1, 1, 0, 0, 1]⟩, ⟨[1, 2], [0, 10]⟩) :=
  ⟨(C4_Lin_empty_Lim ⟨[2, 3], [0, 1, 1, 0, 0, 1]⟩).2.1 ⟨[0], []⟩ (by decide),
   (C4_Lin_empty_Lim ⟨[2, 3], [0, 1, 1, 0, 0, 1]⟩).2.2 ⟨[1, 2], [0, 10]⟩
     ⟨[1, 2], [0, 10]⟩ ⟨[2, 3], [0, 1, 1, 0, 0, 1]⟩ (by decide) (by decide) (by decide)⟩

/-- C5 counterexample: the claim states that construction succeeds
exactly when `nD==nu`, `nD==1` or `nu==1`.  For `D` of shape `(3,0)` and
`u` of shape `(3,1)` we have `nu==1`, yet `Rays._checkformat_inputs_dgeom`
raises the ambiguity error, because the code condition is
`(nD==1 and nu>1) or (nD>1 and nu==1) or nD==nu` and none of the three
disjuncts holds for `nD=0`, `nu=1`. -/
theorem C5_counterexample :
    Rays_checkformat_inputs_dgeom [] [((0 : ℝ), (0 : ℝ), (1 : ℝ))] =
      Except.error nRaysAmbiguousMsg := by
  unfold Rays_checkformat_inputs_dgeom
  norm_num

/-- C5 (amended): `Rays._checkformat_inputs_dgeom` succeeds, with
`nRays = max(nD,nu)`, exactly when `nD==nu`, or `nD==1` and `nu>1`, or
`nu==1` and `nD>1`; whenever `nD` and `nu` differ with neither condition
holding -- in particular whenever they differ with neither equal to 1,
and also when one is 0 and the other is 1 -- it raises the descriptive
ambiguity error. -/
theorem C5_nRays_broadcast (D u : List Vec3) :
    ((D.length = 1 ∧ u.length > 1) ∨ (D.length > 1 ∧ u.length = 1) ∨
        D.length = u.length →
      Rays_checkformat_inputs_dgeom D u =
        Except.ok (D, u.map normalize3, max D.length u.length)) ∧
    (¬ ((D.length = 1 ∧ u.length > 1) ∨ (D.length > 1 ∧ u.length = 1) ∨
        D.length = u.length) →
      Rays_checkformat_inputs_dgeom D u = Except.error nRaysAmbiguousMsg) := by
  constructor
  · intro h
    unfold Rays_checkformat_inputs_dgeom
    rw [if_pos h]
  · intro h
    unfold Rays_checkformat_inputs_dgeom
    rw [if_neg h]

theorem C5_nRays_broadcast_witness :
    Rays_checkformat_inputs_dgeom [((2 : ℝ), (0 : ℝ), (0.5 : ℝ))]
        [((-1 : ℝ), (0 : ℝ), (0 : ℝ))] =
      Except.ok ([((2 : ℝ), (0 : ℝ), (0.5 : ℝ))],
        [normalize3 ((-1 : ℝ), (0 : ℝ), (0 : ℝ))], 1) :=
  (C5_nRays_broadcast [((2 : ℝ), (0 : ℝ), (0.5 : ℝ))]
      [((-1 : ℝ), (0 : ℝ), (0 : ℝ))]).1 (Or.inr (Or.inr rfl))

/-- C6 (amended): for a constructed `Rays` object the columns of the `u`
property are the stated normalizations -- the supplied direction divided
by its Euclidean norm when `u` is given (`u` is normalized as
`u/np.sqrt(np.sum(u**2,axis=0))` at construction and returned by the
property), and `normalize(pinhole - D[:,i])` in column `i` when a pinhole
is given -- and each column is a unit vector provided the vector being
normalized is nonzero. -/
theorem C6_u_columns_unit (D u Dr ur : List Vec3) (n : ℕ) (pinhole : Vec3) :
    (Rays_checkformat_inputs_dgeom D u = Except.ok (Dr, ur, n) →
      ur = u.map normalize3 ∧
      ((∀ v ∈ u, v ≠ ((0 : ℝ), (0 : ℝ), (0 : ℝ))) →
        ∀ w ∈ ur, norm3 w = 1)) ∧
    ((∀ d ∈ D,
        (pinhole.1 - d.1, pinhole.2.1 - d.2.1, pinhole.2.2 - d.2.2) ≠
          ((0 : ℝ), (0 : ℝ), (0 : ℝ))) →
      ∀ w ∈ Rays_u_pinhole pinhole D, norm3 w = 1) := by
  constructor
  · intro h
    unfold Rays_checkformat_inputs_dgeom at h
    dsimp only at h
    split at h
    · cases h
      refine ⟨rfl, ?_⟩
      intro hnz w hw
      rcases List.mem_map.mp hw with ⟨v, hv, rfl⟩
      exact norm3_normalize3 v (hnz v hv)
    · cases h
  · intro hnz w hw
    unfold Rays_u_pinhole at hw
    rcases List.mem_map.mp hw with ⟨d, hd, rfl⟩
    exact norm3_normalize3 _ (hnz d hd)

theorem C6_u_columns_unit_witness :
    norm3 (normalize3 ((0 : ℝ), (0 : ℝ), (1 : ℝ))) = 1 := by
  have h := (C6_u_columns_unit [((1 : ℝ), (0 : ℝ), (0 : ℝ))]
      [((0 : ℝ), (0 : ℝ), (1 : ℝ))] [((1 : ℝ), (0 : ℝ), (0 : ℝ))]
      [normalize3 ((0 : ℝ), (0 : ℝ), (1 : ℝ))] 1
      ((0 : ℝ), (0 : ℝ), (0 : ℝ))).1 rfl
  refine h.2 ?_ _ (List.mem_singleton.mpr rfl)
  intro v hv
  rw [List.mem_singleton.mp hv]
  intro hcon
  have := congrArg (fun p => p.2.2) hcon
  norm_num at this

/-- C6 counterexample: the claim states that every column of the `u`
property of a constructed `Rays` object is a unit vector.  Construction
with `D = (0,0,0)` and the zero direction `u = (0,0,0)` passes all checks
(`nD == nu == 1`), yet the stored column `normalize3 (0,0,0)` has
Euclidean norm 0, not 1 (in numpy the division `0/0` makes it a NaN
column, likewise not a unit vector). -/
theorem C6_counterexample :
    Rays_checkformat_inputs_dgeom [((0 : ℝ), (0 : ℝ), (0 : ℝ))]
        [((0 : ℝ), (0 : ℝ), (0 : ℝ))] =
      Except.ok ([((0 : ℝ), (0 : ℝ), (0 : ℝ))],
        [normalize3 ((0 : ℝ), (0 : ℝ), (0 : ℝ))], 1) ∧
    norm3 (normalize3 ((0 : ℝ), (0 : ℝ), (0 : ℝ))) = 0 ∧
    (0 : ℝ) ≠ 1 := by
  refine ⟨?_, ?_, by norm_num⟩
  · unfold Rays_checkformat_inputs_dgeom
    norm_num
  · have hz : normalize3 ((0 : ℝ), (0 : ℝ), (0 : ℝ)) = ((0 : ℝ), (0 : ℝ), (0 : ℝ)) := by
      unfold normalize3
      norm_num
    rw [hz]
    unfold norm3
    norm_num

/-- C7: the `Poly` argument handling at `Struct` construction time: a
`(2,N)` array is kept as-is, an `(N,2)` array is transposed to `(2,N)`,
and construction fails for `ndim` different from 2, for arrays with no
dimension equal to 2, and (via the spec-modelled vertex-count check of
the downstream polygon construction) for fewer than 3 vertices. -/
theorem C7_Poly_layout (a : NpArray) :
    (∀ N : ℕ, a.shape = [2, N] → 3 ≤ N → Struct_construct_Poly a = Except.ok a) ∧
    (∀ N : ℕ, a.shape = [N, 2] → 3 ≤ N →
      Struct_construct_Poly a = Except.ok (transpose2 a)) ∧
    (a.ndim ≠ 2 → isOkE (Struct_construct_Poly a) = false) ∧
    (2 ∉ a.shape → isOkE (Struct_construct_Poly a) = false) ∧
    (∀ r n : ℕ, a.shape = [r, n] → (if r = 2 then n else r) < 3 →
      isOkE (Struct_construct_Poly a) = false) := by
  refine ⟨?_, ?_, ?_, ?_, ?_⟩
  · intro N h hN
    have h3 : ¬ N < 3 := by omega
    simp [Struct_construct_Poly, checkformat_Poly, set_Poly_check, NpArray.ndim, h, h3]
  · intro N h hN
    have hN2 : N ≠ 2 := by omega
    have ht : (transpose2 a).shape = [2, N] := transpose2_shape a N 2 h
    have h3 : ¬ N < 3 := by omega
    simp [Struct_construct_Poly, checkformat_Poly, set_Poly_check, NpArray.ndim,
      h, hN2, ht, h3]
  · intro h
    have hc : ¬ (a.ndim = 2 ∧ 2 ∈ a.shape) := fun hc => h hc.1
    simp [Struct_construct_Poly, checkformat_Poly, hc, isOkE]
  · intro h
    have hc : ¬ (a.ndim = 2 ∧ 2 ∈ a.shape) := fun hc => h hc.2
    simp [Struct_construct_Poly, checkformat_Poly, hc, isOkE]
  · intro r n h hlt
    by_cases hr : r = 2
    · subst hr
      have hn3 : n < 3 := by simpa using hlt
      simp [Struct_construct_Poly, checkformat_Poly, set_Poly_check, NpArray.ndim,
        h, hn3, isOkE]
    · simp only [if_neg hr] at hlt
      by_cases hn : n = 2
      · subst hn
        have ht : (transpose2 a).shape = [2, r] := transpose2_shape a r 2 h
        simp [Struct_construct_Poly, checkformat_Poly, set_Poly_check, NpArray.ndim,
          h, hr, ht, hlt, isOkE]
      · have hc : ¬ (a.ndim = 2 ∧ 2 ∈ a.shape) := by
          simp [NpArray.ndim, h]
          omega
        simp [Struct_construct_Poly, checkformat_Poly, hc, isOkE]

theorem C7_Poly_layout_witness :
    Struct_construct_Poly ⟨[2, 3], [0, 1, 1, 0, 0, 1]⟩ =
      Except.ok ⟨[2, 3], [0, 1, 1, 0, 0, 1]⟩ :=
  (C7_Poly_layout ⟨[2, 3], [0, 1, 1, 0, 0, 1]⟩).1 3 rfl (by norm_num)

/-- C8 counterexample: the claim states that the `Lim` normalization is
idempotent on every accepted argument.  The zero-size 2D array of shape
`(0,5)` is accepted (the shape test is
`2 in Lim.shape or 0 in Lim.shape`), but normalization merely transposes
it to shape `(5,0)`, and normalizing that output transposes it back to
`(0,5)`: the second pass does not return the first pass output. -/
theorem C8_counterexample :
    checkformat_Lim ⟨[0, 5], []⟩ = Except.ok ⟨[5, 0], []⟩ ∧
    checkformat_Lim ⟨[5, 0], []⟩ = Except.ok ⟨[0, 5], []⟩ ∧
    (⟨[5, 0], []⟩ : NpArray) ≠ ⟨[0, 5], []⟩ := by
  decide

/-- C8 (amended): the `Lim` normalization is idempotent on every accepted
argument whose normalized output is the 1D empty array or has shape
`(nLim, 2)` -- that is, on every accepted argument except the zero-size
2D arrays with no dimension equal to 2, which are accepted but merely
transposed again by a second pass. -/
theorem C8_Lim_norm_idempotent (a L : NpArray)
    (h : checkformat_Lim a = Except.ok L)
    (hL : L.shape = [0] ∨ ∃ m : ℕ, L.shape = [m, 2]) :
    checkformat_Lim L = Except.ok L := by
  rcases hL with h0 | ⟨m, hm⟩
  · simp [checkformat_Lim, NpArray.ndim, h0]
  · simp [checkformat_Lim, NpArray.ndim, hm]

theorem C8_Lim_norm_idempotent_witness :
    checkformat_Lim ⟨[3, 2], [0, 1, 2, 3, 4, 5]⟩ =
      Except.ok ⟨[3, 2], [0, 1, 2, 3, 4, 5]⟩ :=
  C8_Lim_norm_idempotent ⟨[3, 2], [0, 1, 2, 3, 4, 5]⟩ ⟨[3, 2], [0, 1, 2, 3, 4, 5]⟩
    (by decide) (Or.inr ⟨3, rfl⟩)

/-- C9: `Config.isInside` returns a boolean array of shape
`(nStruct, nP)`; for each member structure with `nLim > 1` the
per-occurrence rows of its containment result are collapsed into one row
by logical OR over occurrences when `log='any'` and by logical AND when
`log='all'`. -/
theorem C9_isInside_collapse (log : LogMode) (nP : ℕ) (lS : List StructInside)
    (hwf : ∀ s ∈ lS, ∀ row ∈ s.rows, row.length = nP) :
    (Config_isInside log nP lS).length = lS.length ∧
    (∀ row ∈ Config_isInside log nP lS, row.length = nP) ∧
    (∀ (i : ℕ) (hi : i < lS.length), (lS.get ⟨i, hi⟩).nLim > 1 →
      ∀ j : ℕ, j < nP →
        (((Config_isInside log nP lS).getD i []).getD j false = true ↔
          if log = LogMode.logAny then
            ∃ row ∈ (lS.get ⟨i, hi⟩).rows, row.getD j false = true
          else
            ∀ row ∈ (lS.get ⟨i, hi⟩).rows, row.getD j false = true)) := by
  refine ⟨by simp [Config_isInside], ?_, ?_⟩
  · intro row hrow
    rcases List.mem_map.mp hrow with ⟨s, hs, rfl⟩
    unfold Config_isInside_row
    by_cases h1 : s.nLim > 1
    · rw [if_pos h1]
      by_cases hlog : log = LogMode.logAny
      · rw [if_pos hlog]
        simp [np_any_axis0]
      · rw [if_neg hlog]
        simp [np_all_axis0]
    · rw [if_neg h1]
      cases hrows : s.rows with
      | nil => simp
      | cons r rs =>
          simp only [List.headD_cons]
          exact hwf s hs r (by rw [hrows]; exact List.mem_cons_self r rs)
  · intro i hi h1 j hj
    have hrow : (Config_isInside log nP lS).getD i [] =
        Config_isInside_row log nP (lS.get ⟨i, hi⟩) := by
      unfold Config_isInside
      rw [List.getD_eq_get?, List.get?_map, List.get?_eq_get hi]
      rfl
    rw [hrow]
    unfold Config_isInside_row
    rw [if_pos h1]
    have hany : (np_any_axis0 (lS.get ⟨i, hi⟩).rows nP).getD j false =
        (lS.get ⟨i, hi⟩).rows.any (fun row => row.getD j false) := by
      unfold np_any_axis0
      rw [List.getD_eq_get?, List.get?_map, List.get?_range hj]
      rfl
    have hall : (np_all_axis0 (lS.get ⟨i, hi⟩).rows nP).getD j false =
        (lS.get ⟨i, hi⟩).rows.all (fun row => row.getD j false) := by
      unfold np_all_axis0
      rw [List.getD_eq_get?, List.get?_map, List.get?_range hj]
      rfl
    by_cases hlog : log = LogMode.logAny
    · rw [if_pos hlog, if_pos hlog, hany]
      simp [List.any_eq_true]
    · rw [if_neg hlog, if_neg hlog, hall]
      simp [List.all_eq_true]

theorem C9_isInside_collapse_witness :
    (Config_isInside LogMode.logAny 2 [⟨2, [[true, false], [false, false]]⟩]).length = 1 ∧
    (((Config_isInside LogMode.logAny 2
        [⟨2, [[true, false], [false, false]]⟩]).getD 0 []).getD 0 false = true ↔
      if LogMode.logAny = LogMode.logAny then
        ∃ row ∈ (([⟨2, [[true, false], [false, false]]⟩] :
          List StructInside).get ⟨0, by norm_num⟩).rows, row.getD 0 false = true
      else
        ∀ row ∈ (([⟨2, [[true, false], [false, false]]⟩] :
          List StructInside).get ⟨0, by norm_num⟩).rows, row.getD 0 false = true) := by
  have h := C9_isInside_collapse LogMode.logAny 2
    [⟨2, [[true, false], [false, false]]⟩] (by decide)
  exact ⟨h.1, h.2.2 0 (by norm_num) (by decide) 0 (by norm_num)⟩

/-- C10: `Ves._checkformat_inputs_dgeom` rejects `Type='Tor'` together
with a nonempty `Lim`, while plain `Struct._checkformat_inputs_dgeom`
accepts toroidal structures with occurrence windows; a successfully
constructed toroidal `Ves` (hence also `PlasmaDomain`, which inherits the
check unchanged) always has an empty `Lim`. -/
theorem C10_Ves_Tor_Lim (Poly : NpArray) (mobile : Bool) :
    (∀ a : NpArray, 0 < a.sizeA →
      isOkE (Ves_checkformat_inputs_dgeom Poly (some a) VType.Tor mobile) = false) ∧
    (∀ a L P : NpArray, checkformat_Poly Poly = Except.ok P →
      checkformat_Lim a = Except.ok L →
      Struct_checkformat_inputs_dgeom Poly (some a) VType.Tor = Except.ok (P, L)) ∧
    (∀ (Lim : Option NpArray) (P L : NpArray),
      Ves_checkformat_inputs_dgeom Poly Lim VType.Tor mobile = Except.ok (P, L) →
      L.sizeA = 0) := by
  refine ⟨?_, ?_, ?_⟩
  · intro a ha
    cases hP : checkformat_Poly Poly with
    | error e => simp [Ves_checkformat_inputs_dgeom, Struct_checkformat_inputs_dgeom,
        hP, isOkE]
    | ok P =>
        cases hL : checkformat_Lim a with
        | error e => simp [Ves_checkformat_inputs_dgeom, Struct_checkformat_inputs_dgeom,
            hP, hL, isOkE]
        | ok L =>
            have hsz : L.sizeA ≠ 0 := by
              rw [checkformat_Lim_sizeA a L hL]
              omega
            have hst : Struct_checkformat_inputs_dgeom Poly (some a) VType.Tor =
                Except.ok (P, L) := by
              simp [Struct_checkformat_inputs_dgeom, hP, hL]
            cases mobile with
            | true => simp [Ves_checkformat_inputs_dgeom, hst, isOkE]
            | false => simp [Ves_checkformat_inputs_dgeom, hst, isOkE, hsz]
  · intro a L P hP hL
    simp [Struct_checkformat_inputs_dgeom, hP, hL]
  · intro Lim P L h
    unfold Ves_checkformat_inputs_dgeom at h
    split at h
    · cases h
    next out hst =>
      by_cases hm : mobile
      · rw [if_pos hm] at h
        cases h
      · rw [if_neg hm] at h
        by_cases hc : VType.Tor = VType.Tor ∧ out.2.sizeA ≠ 0
        · rw [if_pos hc] at h
          cases h
        · rw [if_neg hc] at h
          cases h
          push_neg at hc
          exact hc rfl

theorem C10_Ves_Tor_Lim_witness :
    isOkE (Ves_checkformat_inputs_dgeom ⟨[2, 3], [0, 1, 1, 0, 0, 1]⟩
      (some ⟨[1, 2], [0, 1]⟩) VType.Tor false) = false ∧
    Struct_checkformat_inputs_dgeom ⟨[2, 3], [0, 1, 1, 0, 0, 1]⟩
      (some ⟨[1, 2], [0, 1]⟩) VType.Tor =
      Except.ok (⟨[2, 3], [0, 1, 1, 0, 0, 1]⟩, ⟨[1, 2], [0, 1]⟩) :=
  ⟨(C10_Ves_Tor_Lim ⟨[2, 3], [0, 1, 1, 0, 0, 1]⟩ false).1 ⟨[1, 2], [0, 1]⟩ (by decide),
   (C10_Ves_Tor_Lim ⟨[2, 3], [0, 1, 1, 0, 0, 1]⟩ false).2.1 ⟨[1, 2], [0, 1]⟩
     ⟨[1, 2], [0, 1]⟩ ⟨[2, 3], [0, 1, 1, 0, 0, 1]⟩ (by decide) (by decide)⟩

end Tofu
